import Mathlib

/-!
Shallow embedding of the lease/lock coordination layer of the
gestione-slot-kwh repository (LockManager, LocalLockManager and the
AppManager lifecycle controller), together with theorems settling the
claims about it.

Timestamps are modelled as natural numbers of milliseconds.  A MongoDB
date comparison `field > new Date(Date.now() - K)` is translated as
`field + K > now` and `field < new Date(Date.now() - K)` as
`field + K < now`; both are equivalent to the JavaScript comparison over
the integers.  Each operation receives the single current time `now`,
the generated uuid suffix, and the store state explicitly; `findOne`
is `List.find?`, `deleteMany` is `List.filter` with the negated
predicate, `deleteOne` erases the first matching row, and `save` on a
found document updates the first matching row in place.
-/

namespace GestioneSlot

/-- A row of the `locks` collection (model `Lock`): a Lease record. -/
structure LockRow where
  name : String
  lockType : String
  instanceId : String
  createdAt : Nat
  lastHeartbeat : Nat
deriving Repr, DecidableEq

/-- A row of the `tasklocks` collection (model `TaskLock`). -/
structure TaskLockRow where
  taskName : String
  lockId : String
  instanceId : String
  createdAt : Nat
  expiresAt : Nat
deriving Repr, DecidableEq

/-- The shared persistent store: the two collections the lock layer uses. -/
structure Store where
  locks : List LockRow
  taskLocks : List TaskLockRow
deriving Repr, DecidableEq

/-- The process-local `.bot_lock` marker file content. -/
structure LocalMarker where
  instanceId : String
  createdAt : Nat
  pid : Nat
deriving Repr, DecidableEq

/-- In-memory state of a `LockManager` instance. -/
structure LockMgr where
  instanceId : String
  telegramConflictDetected : Bool
  lastTelegramConflictTime : Option Nat
deriving Repr, DecidableEq

/-- `this.GLOBAL_LOCK_TIMEOUT` (180 s): the lease TTL. -/
def GLOBAL_LOCK_TIMEOUT : Nat := 180000

/-- `this.TASK_LOCK_TIMEOUT` (60 s): default TaskLock TTL. -/
def TASK_LOCK_TIMEOUT : Nat := 60000

/-- Outcome of the single external-channel call (`testBot.getMe()`):
either it succeeds, fails with the distinguishing `ETELEGRAM 409
Conflict` error, or fails with any other error. -/
inductive ChannelOutcome where
  | ok
  | conflict409
  | otherError
deriving Repr, DecidableEq

/-- `last_heartbeat: { $gt: new Date(Date.now() - GLOBAL_LOCK_TIMEOUT) }`. -/
def lockIsLive (now : Nat) (r : LockRow) : Bool :=
  decide (r.lastHeartbeat + GLOBAL_LOCK_TIMEOUT > now)

/-- `last_heartbeat: { $lt: new Date(Date.now() - GLOBAL_LOCK_TIMEOUT) }`. -/
def lockIsStale (now : Nat) (r : LockRow) : Bool :=
  decide (r.lastHeartbeat + GLOBAL_LOCK_TIMEOUT < now)

/-- The generated `lockId`: `` `${taskName}_${Date.now()}_${uuid}` ``. -/
def mkLockId (taskName : String) (now : Nat) (uuid : String) : String :=
  taskName ++ "_" ++ toString now ++ "_" ++ uuid

/-- Updates the first row satisfying `p` (the document `findOne` would
return, modified and then saved). -/
def updateFirstLock (p : LockRow → Bool) (f : LockRow → LockRow) :
    List LockRow → List LockRow
  | [] => []
  | r :: rs => if p r then f r :: rs else r :: updateFirstLock p f rs

/-- Result of `LockManager.acquireTaskLock`. -/
structure AcquireTaskResult where
  success : Bool
  lockId : Option String
  store : Store
deriving Repr, DecidableEq

/-- `LockManager.acquireTaskLock(taskName, timeoutMs)`. -/
def acquireTaskLock (mgr : LockMgr) (taskName : String) (timeoutMs : Nat)
    (now : Nat) (uuid : String) (s : Store) : AcquireTaskResult :=
  let lockId := mkLockId taskName now uuid
  -- telegram_test only: preemptively delete locks created more than one minute ago
  let oldProbe := fun (r : TaskLockRow) =>
    r.taskName == "telegram_test" && decide (r.createdAt + 60000 < now)
  let s1 : Store :=
    if taskName = "telegram_test" then
      { s with taskLocks := s.taskLocks.filter (fun r => !(oldProbe r)) }
    else s
  match s1.taskLocks.find? (fun r => r.taskName == taskName && decide (now < r.expiresAt)) with
  | some existingLock =>
      if taskName = "telegram_test" && decide (now - existingLock.createdAt > 60000) then
        -- force removal of a very old telegram_test lock and take its place
        let s2 : Store :=
          { s1 with taskLocks := s1.taskLocks.eraseP (fun r => decide (r = existingLock)) }
        let row : TaskLockRow :=
          { taskName := taskName, lockId := lockId, instanceId := mgr.instanceId
            createdAt := now, expiresAt := now + timeoutMs }
        { success := true, lockId := some lockId
          store := { s2 with taskLocks := s2.taskLocks ++ [row] } }
      else
        { success := false, lockId := none, store := s1 }
  | none =>
      let row : TaskLockRow :=
        { taskName := taskName, lockId := lockId, instanceId := mgr.instanceId
          createdAt := now, expiresAt := now + timeoutMs }
      { success := true, lockId := some lockId
        store := { s1 with taskLocks := s1.taskLocks ++ [row] } }

/-- `LockManager.releaseTaskLock(taskName, lockId)`: `deleteOne` of the
matching record; `false` (logged) when it no longer exists. -/
def releaseTaskLock (taskName : String) (lockId : String) (s : Store) :
    Bool × Store :=
  let pred := fun (r : TaskLockRow) => r.taskName == taskName && r.lockId == lockId
  match s.taskLocks.find? pred with
  | some _ => (true, { s with taskLocks := s.taskLocks.eraseP pred })
  | none => (false, s)

/-- Outcome of the wrapped task function: its value or thrown error,
together with the store as the function left it. -/
inductive FnOut (V E : Type) where
  | ok : V → Store → FnOut V E
  | err : E → Store → FnOut V E

/-- Result of `LockManager.executeWithLock`: `result` is `.ok none` for
the JavaScript `null`, `.ok (some v)` for a normal value, `.error e`
for a re-raised failure; `fnCalls` counts invocations of the wrapped
function. -/
structure ExecOutcome (V E : Type) where
  result : Except E (Option V)
  store : Store
  fnCalls : Nat

/-- `LockManager.executeWithLock(taskName, taskFunction, timeoutMs)`. -/
def executeWithLock (mgr : LockMgr) (taskName : String)
    (fn : Store → FnOut V E) (timeoutMs now : Nat) (uuid : String)
    (s : Store) : ExecOutcome V E :=
  let acq := acquireTaskLock mgr taskName timeoutMs now uuid s
  match acq.success, acq.lockId with
  | true, some lockId =>
      match fn acq.store with
      | .ok v s2 =>
          { result := .ok (some v)
            store := (releaseTaskLock taskName lockId s2).2, fnCalls := 1 }
      | .err e s2 =>
          { result := .error e
            store := (releaseTaskLock taskName lockId s2).2, fnCalls := 1 }
  | _, _ => { result := .ok none, store := acq.store, fnCalls := 0 }

/-- `LockManager.cleanupTelegramTestLocks()`: deletes expired
`telegram_test` locks and those created more than two minutes ago. -/
def cleanupTelegramTestLocks (now : Nat) (s : Store) : Nat × Store :=
  let expired := fun (r : TaskLockRow) =>
    r.taskName == "telegram_test" && decide (r.expiresAt < now)
  let n1 := s.taskLocks.countP expired
  let s1 : Store := { s with taskLocks := s.taskLocks.filter (fun r => !(expired r)) }
  let old := fun (r : TaskLockRow) =>
    r.taskName == "telegram_test" && decide (r.createdAt + 120000 < now)
  let n2 := s1.taskLocks.countP old
  let s2 : Store := { s1 with taskLocks := s1.taskLocks.filter (fun r => !(old r)) }
  (n1 + n2, s2)

/-- `LockManager.cleanupExpiredTaskLocks()`: deletes all expired task
locks, then runs the `telegram_test` specific cleanup. -/
def cleanupExpiredTaskLocks (now : Nat) (s : Store) : Nat × Store :=
  let expired := fun (r : TaskLockRow) => decide (r.expiresAt < now)
  let n1 := s.taskLocks.countP expired
  let s1 : Store := { s with taskLocks := s.taskLocks.filter (fun r => !(expired r)) }
  let res := cleanupTelegramTestLocks now s1
  (n1 + res.1, res.2)

/-- Result of `LockManager.testTelegramConnection`; `channelCalls`
counts the external `getMe()` calls actually performed. -/
structure ProbeOutcome where
  result : Bool
  mgr : LockMgr
  store : Store
  channelCalls : Nat
deriving Repr, DecidableEq

/-- The back-off guard at the top of `testTelegramConnection`: a
conflict flag with a timestamp less than 60 s old. -/
def conflictBackoff (mgr : LockMgr) (now : Nat) : Bool :=
  mgr.telegramConflictDetected &&
    (match mgr.lastTelegramConflictTime with
     | some t => decide (now - t < 60000)
     | none => false)

/-- `LockManager.testTelegramConnection()`: the Exclusivity Oracle
Probe.  The outcome of the single channel call is the parameter `ch`. -/
def testTelegramConnection (mgr : LockMgr) (ch : ChannelOutcome)
    (now : Nat) (uuid : String) (s : Store) : ProbeOutcome :=
  if conflictBackoff mgr now then
    { result := false, mgr := mgr, store := s, channelCalls := 0 }
  else
    let acq := acquireTaskLock mgr "telegram_test" 20000 now uuid s
    match acq.success, acq.lockId with
    | true, some lockId =>
        match ch with
        | .ok =>
            { result := true
              mgr := { mgr with telegramConflictDetected := false }
              store := (releaseTaskLock "telegram_test" lockId acq.store).2
              channelCalls := 1 }
        | .conflict409 =>
            { result := false
              mgr := { mgr with telegramConflictDetected := true
                                lastTelegramConflictTime := some now }
              store := (releaseTaskLock "telegram_test" lockId acq.store).2
              channelCalls := 1 }
        | .otherError =>
            { result := false, mgr := mgr
              store := (releaseTaskLock "telegram_test" lockId acq.store).2
              channelCalls := 1 }
    | _, _ => { result := false, mgr := mgr, store := acq.store, channelCalls := 0 }

/-- Result of a lease acquisition (`acquireMasterLock`). -/
structure MasterOutcome where
  result : Bool
  mgr : LockMgr
  store : Store
deriving Repr, DecidableEq

/-- The body of `acquireMasterLock` after the Telegram probe and the
live-execution-lock gate have passed: stale-lock cleanup, master-lock
lookup, refresh or insertion. -/
def acquireMasterLockAfterGate (mgr : LockMgr) (now : Nat) (s : Store) :
    MasterOutcome :=
  -- Lock.deleteMany with only the heartbeat filter: stale rows of any name
  let s1 : Store := { s with locks := s.locks.filter (fun r => !(lockIsStale now r)) }
  let masterLive := fun (r : LockRow) =>
    r.name == "master_lock" && r.lockType == "master" && lockIsLive now r
  match s1.locks.find? masterLive with
  | some masterLock =>
      if masterLock.instanceId = mgr.instanceId then
        -- master lock already ours: refresh its heartbeat and save
        { result := true, mgr := mgr
          store := { s1 with locks := (updateFirstLock masterLive
            (fun r => { r with lastHeartbeat := now }) s1.locks) } }
      else
        { result := false, mgr := mgr, store := s1 }
  | none =>
      let masterStale := fun (r : LockRow) =>
        r.name == "master_lock" && r.lockType == "master" && lockIsStale now r
      let s2 : Store := { s1 with locks := s1.locks.filter (fun r => !(masterStale r)) }
      let row : LockRow :=
        { name := "master_lock", lockType := "master", instanceId := mgr.instanceId
          createdAt := now, lastHeartbeat := now }
      { result := true, mgr := mgr, store := { s2 with locks := s2.locks ++ [row] } }

/-- `LockManager.acquireMasterLock()`. -/
def acquireMasterLock (mgr : LockMgr) (ch : ChannelOutcome) (now : Nat)
    (uuid : String) (s : Store) : MasterOutcome :=
  let probe := testTelegramConnection mgr ch now uuid s
  if probe.result then
    -- gate: a live execution lock of another instance blocks acquisition
    match probe.store.locks.find?
        (fun r => r.lockType == "execution" && lockIsLive now r) with
    | some activeLock =>
        if activeLock.instanceId = probe.mgr.instanceId then
          acquireMasterLockAfterGate probe.mgr now probe.store
        else
          { result := false, mgr := probe.mgr, store := probe.store }
    | none => acquireMasterLockAfterGate probe.mgr now probe.store
  else
    { result := false, mgr := probe.mgr, store := probe.store }

/-- `LocalLockManager.createLockFile()`. -/
def createLockFile (instanceId : String) (now pid : Nat) :
    Bool × Option LocalMarker :=
  (true, some { instanceId := instanceId, createdAt := now, pid := pid })

/-- `LocalLockManager.checkLockFile()`: the marker exists and belongs
to this instance. -/
def checkLockFile (instanceId : String) (marker : Option LocalMarker) : Bool :=
  match marker with
  | some m => m.instanceId == instanceId
  | none => false

/-- `LocalLockManager.removeLockFile()`: unlinks the marker only when
`checkLockFile` succeeds. -/
def removeLockFile (instanceId : String) (marker : Option LocalMarker) :
    Bool × Option LocalMarker :=
  if checkLockFile instanceId marker then (true, none) else (false, marker)

/-- Result of `acquireExecutionLock`, which also touches the local
marker file. -/
structure ExecutionOutcome where
  result : Bool
  mgr : LockMgr
  store : Store
  marker : Option LocalMarker
deriving Repr, DecidableEq

/-- `LockManager.acquireExecutionLock()`. -/
def acquireExecutionLock (mgr : LockMgr) (ch : ChannelOutcome) (now : Nat)
    (uuid : String) (pid : Nat) (s : Store) (marker : Option LocalMarker) :
    ExecutionOutcome :=
  let probe := testTelegramConnection mgr ch now uuid s
  if probe.result then
    let execLive := fun (r : LockRow) =>
      r.name == "execution_lock" && r.lockType == "execution" && lockIsLive now r
    match probe.store.locks.find? execLive with
    | some executionLock =>
        if executionLock.instanceId = probe.mgr.instanceId then
          -- execution lock already ours: refresh its heartbeat and save
          { result := true, mgr := probe.mgr
            store := { probe.store with locks := (updateFirstLock execLive
              (fun r => { r with lastHeartbeat := now }) probe.store.locks) }
            marker := marker }
        else
          { result := false, mgr := probe.mgr, store := probe.store, marker := marker }
    | none =>
        let execStale := fun (r : LockRow) =>
          r.name == "execution_lock" && r.lockType == "execution" && lockIsStale now r
        let s2 : Store :=
          { probe.store with locks := probe.store.locks.filter (fun r => !(execStale r)) }
        let row : LockRow :=
          { name := "execution_lock", lockType := "execution"
            instanceId := probe.mgr.instanceId, createdAt := now, lastHeartbeat := now }
        let created := createLockFile probe.mgr.instanceId now pid
        { result := true, mgr := probe.mgr
          store := { s2 with locks := s2.locks ++ [row] }, marker := created.2 }
  else
    { result := false, mgr := probe.mgr, store := probe.store, marker := marker }

/-- The task function run inside both heartbeat updates (the two
JavaScript bodies are identical up to the lease name and type):
re-reads this holder's lease row of that name (no liveness filter) and
refreshes its heartbeat when present. -/
def heartbeatFn (leaseName leaseType : String) (mgr : LockMgr) (now : Nat) :
    Store → FnOut Bool Empty := fun s =>
  let ownRow := fun (r : LockRow) =>
    r.name == leaseName && r.lockType == leaseType && r.instanceId == mgr.instanceId
  match s.locks.find? ownRow with
  | some _ =>
      .ok true { s with locks := (updateFirstLock ownRow
        (fun r => { r with lastHeartbeat := now }) s.locks) }
  | none => .ok false s

/-- `LockManager.updateExecutionLockHeartbeat()`: the heartbeat body
wrapped in the `execution_heartbeat` TaskLock (20 s timeout). -/
def updateExecutionLockHeartbeat (mgr : LockMgr) (now : Nat) (uuid : String)
    (s : Store) : ExecOutcome Bool Empty :=
  executeWithLock mgr "execution_heartbeat"
    (heartbeatFn "execution_lock" "execution" mgr now) 20000 now uuid s

/-- `LockManager.updateMasterLockHeartbeat()`: the heartbeat body
wrapped in the `master_heartbeat` TaskLock (default timeout). -/
def updateMasterLockHeartbeat (mgr : LockMgr) (now : Nat) (uuid : String)
    (s : Store) : ExecOutcome Bool Empty :=
  executeWithLock mgr "master_heartbeat"
    (heartbeatFn "master_lock" "master" mgr now) TASK_LOCK_TIMEOUT now uuid s

/-- `LockManager.releaseAllLocks()`: deletes this instance's task locks
and lease rows and removes the local marker file. -/
def releaseAllLocks (mgr : LockMgr) (s : Store) (marker : Option LocalMarker) :
    Bool × Store × Option LocalMarker :=
  let s1 : Store :=
    { s with taskLocks := s.taskLocks.filter (fun r => !(r.instanceId == mgr.instanceId)) }
  let s2 : Store :=
    { s1 with locks := s1.locks.filter (fun r => !(r.instanceId == mgr.instanceId)) }
  let removed := removeLockFile mgr.instanceId marker
  (true, s2, removed.2)

/-- `this.CONNECTION_ATTEMPT_COOLDOWN` (30 s) of `AppManager`. -/
def CONNECTION_ATTEMPT_COOLDOWN : Nat := 30000

/-- In-memory state of the `AppManager` instance: the shutdown flag,
the last recorded execution-lock connection attempt, the four periodic
timers (modelled as set / cleared), the notification system handle and
the store connection. -/
structure AppMgr where
  isShuttingDown : Bool
  lastConnectionAttemptTime : Nat
  masterLockHeartbeatInterval : Bool
  executionLockHeartbeatInterval : Bool
  lockCheckInterval : Bool
  keepAliveInterval : Bool
  notificationSystem : Bool
  storeConnected : Bool
deriving Repr, DecidableEq

/-- What one invocation of `AppManager.acquireExecutionLock` does before
reaching the `LockManager`: nothing (shutdown in progress), a reschedule
after `delay` milliseconds (cooldown not yet elapsed), or an attempt
that calls `LockManager.acquireExecutionLock`. -/
inductive AcqExecAction where
  | shutdownSkip
  | reschedule (delay : Nat)
  | attempt
deriving Repr, DecidableEq

/-- The cooldown logic at the top of `AppManager.acquireExecutionLock`
(the jitter argument is the sampled `Math.random() * 5000`). -/
def appAcquireExecutionLockStep (a : AppMgr) (now jitter : Nat) :
    AcqExecAction × AppMgr :=
  if a.isShuttingDown then (.shutdownSkip, a)
  else
    let timeSinceLastAttempt := now - a.lastConnectionAttemptTime
    if timeSinceLastAttempt < CONNECTION_ATTEMPT_COOLDOWN then
      (.reschedule (CONNECTION_ATTEMPT_COOLDOWN - timeSinceLastAttempt + jitter), a)
    else
      (.attempt, { a with lastConnectionAttemptTime := now })

/-- Times at which a sequence of invocations of the controller's
`acquireExecutionLock` entry point (given as invocation time / jitter
pairs) actually reaches `LockManager.acquireExecutionLock`. -/
def attemptTimes (a : AppMgr) : List (Nat × Nat) → List Nat
  | [] => []
  | (t, j) :: rest =>
      let step := appAcquireExecutionLockStep a t j
      if step.1 = .attempt then t :: attemptTimes step.2 rest
      else attemptTimes step.2 rest

/-- The externally visible steps of `AppManager.performShutdown`. -/
inductive ShutdownStep where
  | saveShutdownNotification
  | stopNotificationSystem
  | clearTimers
  | stopBot
  | emergencyReleaseTelegram
  | releaseAllLocks
  | closeStoreConnection
deriving Repr, DecidableEq

/-- `AppManager.performShutdown(reason)`: guarded by `isShuttingDown`;
returns the list of shutdown steps it executed. -/
def performShutdown (a : AppMgr) : List ShutdownStep × AppMgr :=
  if a.isShuttingDown then ([], a)
  else
    let steps :=
      [ShutdownStep.saveShutdownNotification]
        ++ (if a.notificationSystem then [ShutdownStep.stopNotificationSystem] else [])
        ++ [ShutdownStep.clearTimers, ShutdownStep.stopBot,
            ShutdownStep.emergencyReleaseTelegram, ShutdownStep.releaseAllLocks]
        ++ (if a.storeConnected then [ShutdownStep.closeStoreConnection] else [])
    (steps,
      { a with isShuttingDown := true, notificationSystem := false
               masterLockHeartbeatInterval := false
               executionLockHeartbeatInterval := false
               lockCheckInterval := false, keepAliveInterval := false
               storeConnected := false })

/-! ### Helper lemmas -/

theorem acquireTaskLock_store_locks (mgr : LockMgr) (taskName : String)
    (timeoutMs now : Nat) (uuid : String) (s : Store) :
    (acquireTaskLock mgr taskName timeoutMs now uuid s).store.locks = s.locks := by
  unfold acquireTaskLock
  simp only []
  split <;> (try split) <;> (try split) <;> rfl

theorem releaseTaskLock_snd_locks (taskName lockId : String) (s : Store) :
    (releaseTaskLock taskName lockId s).2.locks = s.locks := by
  unfold releaseTaskLock
  simp only []
  split <;> rfl

theorem testTelegramConnection_store_locks (mgr : LockMgr) (ch : ChannelOutcome)
    (now : Nat) (uuid : String) (s : Store) :
    (testTelegramConnection mgr ch now uuid s).store.locks = s.locks := by
  unfold testTelegramConnection
  simp only []
  split
  · rfl
  · split
    · cases ch <;>
        simp only [releaseTaskLock_snd_locks, acquireTaskLock_store_locks]
    · exact acquireTaskLock_store_locks ..

theorem testTelegramConnection_instanceId (mgr : LockMgr) (ch : ChannelOutcome)
    (now : Nat) (uuid : String) (s : Store) :
    (testTelegramConnection mgr ch now uuid s).mgr.instanceId = mgr.instanceId := by
  unfold testTelegramConnection
  simp only []
  split
  · rfl
  · split
    · cases ch <;> rfl
    · rfl

theorem acquireTaskLock_busy (mgr : LockMgr) (taskName : String)
    (timeoutMs now : Nat) (uuid : String) (s : Store)
    (hname : taskName ≠ "telegram_test")
    (h : (s.taskLocks.find?
      (fun r => r.taskName == taskName && decide (now < r.expiresAt))).isSome = true) :
    acquireTaskLock mgr taskName timeoutMs now uuid s =
      { success := false, lockId := none, store := s } := by
  unfold acquireTaskLock
  simp only []
  rw [if_neg hname]
  obtain ⟨e, he⟩ := Option.isSome_iff_exists.mp h
  rw [he]
  simp [hname]

theorem acquireTaskLock_free (mgr : LockMgr) (taskName : String)
    (timeoutMs now : Nat) (uuid : String) (s : Store)
    (hname : taskName ≠ "telegram_test")
    (h : s.taskLocks.find?
      (fun r => r.taskName == taskName && decide (now < r.expiresAt)) = none) :
    acquireTaskLock mgr taskName timeoutMs now uuid s =
      ⟨true, some (mkLockId taskName now uuid),
        ⟨s.locks, s.taskLocks ++
          [⟨taskName, mkLockId taskName now uuid, mgr.instanceId, now,
            now + timeoutMs⟩]⟩⟩ := by
  unfold acquireTaskLock
  simp only []
  rw [if_neg hname, h]

theorem acquireTaskLock_emptyTasks (mgr : LockMgr) (taskName : String)
    (timeoutMs now : Nat) (uuid : String) (L : List LockRow) :
    acquireTaskLock mgr taskName timeoutMs now uuid ⟨L, []⟩ =
      ⟨true, some (mkLockId taskName now uuid),
        ⟨L, [⟨taskName, mkLockId taskName now uuid, mgr.instanceId, now,
          now + timeoutMs⟩]⟩⟩ := by
  unfold acquireTaskLock
  simp only []
  rcases eq_or_ne taskName "telegram_test" with h | h
  · rw [if_pos h]
    rfl
  · rw [if_neg h]
    rfl

theorem releaseTaskLock_single (taskName lockId : String) (L : List LockRow)
    (row : TaskLockRow) (h1 : row.taskName = taskName) (h2 : row.lockId = lockId) :
    releaseTaskLock taskName lockId ⟨L, [row]⟩ = (true, ⟨L, []⟩) := by
  unfold releaseTaskLock
  simp only []
  have hp : (row.taskName == taskName && row.lockId == lockId) = true := by
    simp [h1, h2]
  simp [List.find?_cons, List.eraseP_cons, hp]

theorem testTelegramConnection_ok_clean (mgr : LockMgr)
    (hflag : mgr.telegramConflictDetected = false)
    (now : Nat) (uuid : String) (L : List LockRow) :
    testTelegramConnection mgr .ok now uuid ⟨L, []⟩ =
      ⟨true, { mgr with telegramConflictDetected := false }, ⟨L, []⟩, 1⟩ := by
  have hb : conflictBackoff mgr now = false := by
    unfold conflictBackoff
    rw [hflag]
    rfl
  unfold testTelegramConnection
  rw [if_neg (by simp [hb]), acquireTaskLock_emptyTasks]
  dsimp only
  rw [releaseTaskLock_single "telegram_test" (mkLockId "telegram_test" now uuid)
    L _ rfl rfl]

theorem releaseTaskLock_snd_taskLocks (taskName lockId : String) (s : Store) :
    (releaseTaskLock taskName lockId s).2.taskLocks =
      s.taskLocks.eraseP (fun r => r.taskName == taskName && r.lockId == lockId) := by
  unfold releaseTaskLock
  simp only []
  split
  · rfl
  · rename_i hnone
    rw [List.eraseP_of_forall_not]
    intro a ha
    simpa using List.find?_eq_none.mp hnone a ha

theorem releaseAllLocks_eq (mgr : LockMgr) (s : Store) (marker : Option LocalMarker) :
    releaseAllLocks mgr s marker =
      (true,
       { locks := s.locks.filter (fun r => !(r.instanceId == mgr.instanceId))
         taskLocks := s.taskLocks.filter (fun r => !(r.instanceId == mgr.instanceId)) },
       (removeLockFile mgr.instanceId marker).2) := rfl

theorem checkLockFile_removeLockFile (instanceId : String)
    (marker : Option LocalMarker) :
    checkLockFile instanceId (removeLockFile instanceId marker).2 = false := by
  unfold removeLockFile
  split
  · rfl
  · rename_i h
    simpa using h

theorem removeLockFile_of_not_owned (instanceId : String)
    (marker : Option LocalMarker) (h : checkLockFile instanceId marker = false) :
    removeLockFile instanceId marker = (false, marker) := by
  unfold removeLockFile
  rw [if_neg (by simp [h])]

/-- Claim C6: `releaseAllLocks` deletes every Lease row and every
TaskLock row owned by this holder and removes the Local Liveness
Marker; it is idempotent: calling it twice produces no error and after
the calls zero Lease/TaskLock rows for that holder remain. -/
theorem releaseAllLocks_idempotent (mgr : LockMgr) (s : Store)
    (marker : Option LocalMarker) :
    (releaseAllLocks mgr s marker).1 = true ∧
    (∀ r ∈ (releaseAllLocks mgr s marker).2.1.locks, r.instanceId ≠ mgr.instanceId) ∧
    (∀ r ∈ (releaseAllLocks mgr s marker).2.1.taskLocks, r.instanceId ≠ mgr.instanceId) ∧
    checkLockFile mgr.instanceId (releaseAllLocks mgr s marker).2.2 = false ∧
    releaseAllLocks mgr (releaseAllLocks mgr s marker).2.1
        (releaseAllLocks mgr s marker).2.2 =
      (true, (releaseAllLocks mgr s marker).2.1, (releaseAllLocks mgr s marker).2.2) := by
  refine ⟨rfl, ?_, ?_, ?_, ?_⟩
  · intro r hr
    simp only [releaseAllLocks_eq] at hr
    have := (List.mem_filter.mp hr).2
    simpa using this
  · intro r hr
    simp only [releaseAllLocks_eq] at hr
    have := (List.mem_filter.mp hr).2
    simpa using this
  · simp only [releaseAllLocks_eq]
    exact checkLockFile_removeLockFile ..
  · have hfix : ∀ (l : List LockRow),
        (l.filter (fun r => !(r.instanceId == mgr.instanceId))).filter
            (fun r => !(r.instanceId == mgr.instanceId)) =
          l.filter (fun r => !(r.instanceId == mgr.instanceId)) := by
      intro l
      apply List.filter_eq_self.mpr
      intro a ha
      exact (List.mem_filter.mp ha).2
    have hfixT : ∀ (l : List TaskLockRow),
        (l.filter (fun r => !(r.instanceId == mgr.instanceId))).filter
            (fun r => !(r.instanceId == mgr.instanceId)) =
          l.filter (fun r => !(r.instanceId == mgr.instanceId)) := by
      intro l
      apply List.filter_eq_self.mpr
      intro a ha
      exact (List.mem_filter.mp ha).2
    have hm : removeLockFile mgr.instanceId (removeLockFile mgr.instanceId marker).2 =
        (false, (removeLockFile mgr.instanceId marker).2) :=
      removeLockFile_of_not_owned _ _ (checkLockFile_removeLockFile ..)
    simp [releaseAllLocks_eq, hfix, hfixT, hm]

/-- Claim C10: the shutdown sequence runs at most once per process: the
first `performShutdown` call sets the `isShuttingDown` flag and
executes the shutdown steps (stop the Consumer, cancel all timers,
release all locks, close the store connection); every later call
returns immediately without repeating any step. -/
theorem performShutdown_runs_once (a : AppMgr) :
    (a.isShuttingDown = true → performShutdown a = ([], a)) ∧
    (a.isShuttingDown = false →
      (performShutdown a).2.isShuttingDown = true ∧
      ShutdownStep.stopBot ∈ (performShutdown a).1 ∧
      ShutdownStep.clearTimers ∈ (performShutdown a).1 ∧
      ShutdownStep.releaseAllLocks ∈ (performShutdown a).1 ∧
      (a.storeConnected = true →
        ShutdownStep.closeStoreConnection ∈ (performShutdown a).1) ∧
      (performShutdown a).2.masterLockHeartbeatInterval = false ∧
      (performShutdown a).2.executionLockHeartbeatInterval = false ∧
      (performShutdown a).2.lockCheckInterval = false ∧
      (performShutdown a).2.keepAliveInterval = false ∧
      performShutdown (performShutdown a).2 = ([], (performShutdown a).2)) := by
  constructor
  · intro h
    unfold performShutdown
    rw [if_pos h]
  · intro h
    have h1 : performShutdown a =
        ([ShutdownStep.saveShutdownNotification]
            ++ (if a.notificationSystem then [ShutdownStep.stopNotificationSystem] else [])
            ++ [ShutdownStep.clearTimers, ShutdownStep.stopBot,
                ShutdownStep.emergencyReleaseTelegram, ShutdownStep.releaseAllLocks]
            ++ (if a.storeConnected then [ShutdownStep.closeStoreConnection] else []),
          { a with isShuttingDown := true, notificationSystem := false
                   masterLockHeartbeatInterval := false
                   executionLockHeartbeatInterval := false
                   lockCheckInterval := false, keepAliveInterval := false
                   storeConnected := false }) := by
      unfold performShutdown
      rw [if_neg (by simp [h])]
    rw [h1]
    refine ⟨rfl, by simp, by simp, by simp, fun hc => by simp [hc],
      rfl, rfl, rfl, rfl, ?_⟩
    unfold performShutdown
    rw [if_pos rfl]

theorem appAcquire_attempt_sets_time (a : AppMgr) (now jitter : Nat)
    (h : (appAcquireExecutionLockStep a now jitter).1 = .attempt) :
    (appAcquireExecutionLockStep a now jitter).2.lastConnectionAttemptTime = now ∧
    a.lastConnectionAttemptTime + CONNECTION_ATTEMPT_COOLDOWN ≤ now := by
  unfold appAcquireExecutionLockStep at h ⊢
  simp only [] at h ⊢
  split
  · rename_i hc
    rw [if_pos hc] at h
    simp at h
  · rename_i hc
    split
    · rename_i hc2
      rw [if_neg hc, if_pos hc2] at h
      simp at h
    · rename_i hc2
      refine ⟨rfl, ?_⟩
      unfold CONNECTION_ATTEMPT_COOLDOWN at hc2 ⊢
      omega

theorem appAcquire_non_attempt_keeps_time (a : AppMgr) (now jitter : Nat)
    (h : (appAcquireExecutionLockStep a now jitter).1 ≠ .attempt) :
    (appAcquireExecutionLockStep a now jitter).2 = a := by
  unfold appAcquireExecutionLockStep at h ⊢
  simp only [] at h ⊢
  split
  · rfl
  · rename_i hc
    split
    · rfl
    · rename_i hc2
      rw [if_neg hc, if_neg hc2] at h
      simp at h

theorem attemptTimes_head_lower (ts : List (Nat × Nat)) :
    ∀ (a : AppMgr), ∀ t ∈ (attemptTimes a ts).head?,
      a.lastConnectionAttemptTime + CONNECTION_ATTEMPT_COOLDOWN ≤ t := by
  induction ts with
  | nil =>
      intro a t ht
      simp [attemptTimes] at ht
  | cons p rest ih =>
      intro a t ht
      obtain ⟨tp, jp⟩ := p
      unfold attemptTimes at ht
      simp only [] at ht
      by_cases hatt : (appAcquireExecutionLockStep a tp jp).1 = .attempt
      · rw [if_pos hatt] at ht
        simp only [List.head?_cons, Option.mem_def, Option.some.injEq] at ht
        have := (appAcquire_attempt_sets_time a tp jp hatt).2
        omega
      · rw [if_neg hatt] at ht
        have hkeep := appAcquire_non_attempt_keeps_time a tp jp hatt
        have := ih (appAcquireExecutionLockStep a tp jp).2 t ht
        rwa [hkeep] at this

theorem attemptTimes_chain (a : AppMgr) (ts : List (Nat × Nat)) :
    List.Chain' (fun t1 t2 => t1 + CONNECTION_ATTEMPT_COOLDOWN ≤ t2)
      (attemptTimes a ts) := by
  induction ts generalizing a with
  | nil => simp [attemptTimes]
  | cons p rest ih =>
      obtain ⟨tp, jp⟩ := p
      unfold attemptTimes
      simp only []
      by_cases hatt : (appAcquireExecutionLockStep a tp jp).1 = .attempt
      · rw [if_pos hatt]
        rw [List.chain'_cons']
        constructor
        · intro b hb
          have hlow := attemptTimes_head_lower rest
            (appAcquireExecutionLockStep a tp jp).2 b hb
          have := (appAcquire_attempt_sets_time a tp jp hatt).1
          omega
        · exact ih _
      · rw [if_neg hatt]
        exact ih _

/-- Claim C8: the Instance Lifecycle Controller enforces the 30 s
connection-attempt cooldown: when its `acquireExecutionLock` entry
point runs less than `CONNECTION_ATTEMPT_COOLDOWN` after the previous
recorded attempt it does not reach the `LockManager` but reschedules
itself for after the remaining wait, so along this path the
`LockManager` execution-lease acquisition never runs twice within
30 seconds. -/
theorem connection_attempt_cooldown (a : AppMgr) (now jitter : Nat)
    (hrun : a.isShuttingDown = false)
    (hsoon : now - a.lastConnectionAttemptTime < CONNECTION_ATTEMPT_COOLDOWN) :
    appAcquireExecutionLockStep a now jitter =
      (.reschedule (CONNECTION_ATTEMPT_COOLDOWN
          - (now - a.lastConnectionAttemptTime) + jitter), a) ∧
    CONNECTION_ATTEMPT_COOLDOWN - (now - a.lastConnectionAttemptTime)
        ≤ CONNECTION_ATTEMPT_COOLDOWN - (now - a.lastConnectionAttemptTime) + jitter ∧
    (∀ (a2 : AppMgr) (ts : List (Nat × Nat)),
      List.Chain' (fun t1 t2 => t1 + CONNECTION_ATTEMPT_COOLDOWN ≤ t2)
        (attemptTimes a2 ts)) := by
  refine ⟨?_, Nat.le_add_right .., fun a2 ts => attemptTimes_chain a2 ts⟩
  unfold appAcquireExecutionLockStep
  rw [if_neg (by simp [hrun]), if_pos hsoon]

/-- Claim C5: within 60 s of a recorded channel conflict the
Exclusivity Oracle Probe short-circuits to `false` without performing
the external channel call, and any channel error other than the
distinguishing 409 conflict also makes the probe return `false`. -/
theorem probe_backoff_and_error (mgr : LockMgr) (ch : ChannelOutcome)
    (now : Nat) (uuid : String) (s : Store) :
    (∀ t, mgr.telegramConflictDetected = true →
      mgr.lastTelegramConflictTime = some t → now - t < 60000 →
      (testTelegramConnection mgr ch now uuid s).result = false ∧
      (testTelegramConnection mgr ch now uuid s).channelCalls = 0) ∧
    (ch = .otherError →
      (testTelegramConnection mgr ch now uuid s).result = false) := by
  constructor
  · intro t hflag htime hlt
    have hback : conflictBackoff mgr now = true := by
      unfold conflictBackoff
      rw [hflag, htime]
      simpa using hlt
    unfold testTelegramConnection
    rw [if_pos hback]
    exact ⟨rfl, rfl⟩
  · intro hch
    subst hch
    unfold testTelegramConnection
    split
    · rfl
    · simp only []
      split
      · rfl
      · rfl

theorem executeWithLock_fail {V E : Type} (mgr : LockMgr) (taskName : String)
    (fn : Store → FnOut V E) (timeoutMs now : Nat) (uuid : String) (s : Store)
    (h : (acquireTaskLock mgr taskName timeoutMs now uuid s).success = false) :
    executeWithLock mgr taskName fn timeoutMs now uuid s =
      { result := .ok none
        store := (acquireTaskLock mgr taskName timeoutMs now uuid s).store
        fnCalls := 0 } := by
  unfold executeWithLock
  simp only []
  split
  · rename_i heq _
    rw [h] at heq
    cases heq
  · rfl

theorem executeWithLock_success {V E : Type} (mgr : LockMgr) (taskName : String)
    (fn : Store → FnOut V E) (timeoutMs now : Nat) (uuid : String) (s : Store)
    (lockId : String)
    (hs : (acquireTaskLock mgr taskName timeoutMs now uuid s).success = true)
    (hl : (acquireTaskLock mgr taskName timeoutMs now uuid s).lockId = some lockId) :
    executeWithLock mgr taskName fn timeoutMs now uuid s =
      match fn (acquireTaskLock mgr taskName timeoutMs now uuid s).store with
      | .ok v s2 =>
          { result := .ok (some v)
            store := (releaseTaskLock taskName lockId s2).2, fnCalls := 1 }
      | .err e s2 =>
          { result := .error e
            store := (releaseTaskLock taskName lockId s2).2, fnCalls := 1 } := by
  unfold executeWithLock
  simp only []
  rw [hs, hl]

/-- Claim C3: `executeWithLock` returns `null` without invoking the
task function when TaskLock acquisition fails; when acquisition
succeeds it invokes the function exactly once, afterwards deletes the
acquired TaskLock even if the function throws, re-raises the failure
after releasing, and returns the function's result on success. -/
theorem executeWithLock_contract {V E : Type} (mgr : LockMgr) (taskName : String)
    (fn : Store → FnOut V E) (timeoutMs now : Nat) (uuid : String) (s : Store) :
    ((acquireTaskLock mgr taskName timeoutMs now uuid s).success = false →
      (executeWithLock mgr taskName fn timeoutMs now uuid s).result = .ok none ∧
      (executeWithLock mgr taskName fn timeoutMs now uuid s).fnCalls = 0) ∧
    (∀ lockId, (acquireTaskLock mgr taskName timeoutMs now uuid s).success = true →
      (acquireTaskLock mgr taskName timeoutMs now uuid s).lockId = some lockId →
      (executeWithLock mgr taskName fn timeoutMs now uuid s).fnCalls = 1 ∧
      (∀ v s2, fn (acquireTaskLock mgr taskName timeoutMs now uuid s).store = .ok v s2 →
        (executeWithLock mgr taskName fn timeoutMs now uuid s).result = .ok (some v) ∧
        (executeWithLock mgr taskName fn timeoutMs now uuid s).store.taskLocks =
          s2.taskLocks.eraseP
            (fun r => r.taskName == taskName && r.lockId == lockId)) ∧
      (∀ e s2, fn (acquireTaskLock mgr taskName timeoutMs now uuid s).store = .err e s2 →
        (executeWithLock mgr taskName fn timeoutMs now uuid s).result = .error e ∧
        (executeWithLock mgr taskName fn timeoutMs now uuid s).store.taskLocks =
          s2.taskLocks.eraseP
            (fun r => r.taskName == taskName && r.lockId == lockId))) := by
  constructor
  · intro h
    rw [executeWithLock_fail mgr taskName fn timeoutMs now uuid s h]
    exact ⟨rfl, rfl⟩
  · intro lockId hs hl
    rw [executeWithLock_success mgr taskName fn timeoutMs now uuid s lockId hs hl]
    refine ⟨?_, ?_, ?_⟩
    · split <;> rfl
    · intro v s2 hfn
      rw [hfn]
      exact ⟨rfl, releaseTaskLock_snd_taskLocks ..⟩
    · intro e s2 hfn
      rw [hfn]
      exact ⟨rfl, releaseTaskLock_snd_taskLocks ..⟩

theorem heartbeat_wrapped (mgr : LockMgr) (taskName leaseName leaseType : String)
    (timeoutMs now : Nat) (uuid : String) (s : Store)
    (hname : taskName ≠ "telegram_test") :
    ((s.taskLocks.find?
        (fun r => r.taskName == taskName && decide (now < r.expiresAt))).isSome = true →
      executeWithLock mgr taskName (heartbeatFn leaseName leaseType mgr now)
          timeoutMs now uuid s = ⟨.ok none, s, 0⟩) ∧
    (s.taskLocks.find?
        (fun r => r.taskName == taskName && decide (now < r.expiresAt)) = none →
      (s.locks.find? (fun r => r.name == leaseName && r.lockType == leaseType &&
          r.instanceId == mgr.instanceId) = none →
        (executeWithLock mgr taskName (heartbeatFn leaseName leaseType mgr now)
            timeoutMs now uuid s).result = .ok (some false) ∧
        (executeWithLock mgr taskName (heartbeatFn leaseName leaseType mgr now)
            timeoutMs now uuid s).store.locks = s.locks) ∧
      (∀ r0, s.locks.find? (fun r => r.name == leaseName && r.lockType == leaseType &&
          r.instanceId == mgr.instanceId) = some r0 →
        (executeWithLock mgr taskName (heartbeatFn leaseName leaseType mgr now)
            timeoutMs now uuid s).result = .ok (some true) ∧
        (executeWithLock mgr taskName (heartbeatFn leaseName leaseType mgr now)
            timeoutMs now uuid s).store.locks =
          updateFirstLock (fun r => r.name == leaseName && r.lockType == leaseType &&
              r.instanceId == mgr.instanceId)
            (fun r => { r with lastHeartbeat := now }) s.locks)) := by
  constructor
  · intro h
    have hacq := acquireTaskLock_busy mgr taskName timeoutMs now uuid s hname h
    have hfail := executeWithLock_fail mgr taskName
      (heartbeatFn leaseName leaseType mgr now) timeoutMs now uuid s (by rw [hacq])
    rw [hacq] at hfail
    exact hfail
  · intro h
    have hacq := acquireTaskLock_free mgr taskName timeoutMs now uuid s hname h
    have hsucc : (acquireTaskLock mgr taskName timeoutMs now uuid s).success = true := by
      rw [hacq]
    have hlid : (acquireTaskLock mgr taskName timeoutMs now uuid s).lockId =
        some (mkLockId taskName now uuid) := by
      rw [hacq]
    have hmain := executeWithLock_success mgr taskName
      (heartbeatFn leaseName leaseType mgr now) timeoutMs now uuid s
      (mkLockId taskName now uuid) hsucc hlid
    constructor
    · intro hno
      have hfn : heartbeatFn leaseName leaseType mgr now
          (acquireTaskLock mgr taskName timeoutMs now uuid s).store =
          .ok false (acquireTaskLock mgr taskName timeoutMs now uuid s).store := by
        unfold heartbeatFn
        simp only []
        rw [acquireTaskLock_store_locks, hno]
      rw [hmain, hfn]
      refine ⟨rfl, ?_⟩
      show (releaseTaskLock taskName (mkLockId taskName now uuid)
        (acquireTaskLock mgr taskName timeoutMs now uuid s).store).2.locks = s.locks
      rw [releaseTaskLock_snd_locks, acquireTaskLock_store_locks]
    · intro r0 hr0
      have hfn : heartbeatFn leaseName leaseType mgr now
          (acquireTaskLock mgr taskName timeoutMs now uuid s).store =
          .ok true { (acquireTaskLock mgr taskName timeoutMs now uuid s).store with
            locks := (updateFirstLock (fun r => r.name == leaseName &&
                r.lockType == leaseType && r.instanceId == mgr.instanceId)
              (fun r => { r with lastHeartbeat := now })
              (acquireTaskLock mgr taskName timeoutMs now uuid s).store.locks) } := by
        unfold heartbeatFn
        simp only []
        rw [acquireTaskLock_store_locks, hr0]
      rw [hmain, hfn]
      refine ⟨rfl, ?_⟩
      show (releaseTaskLock taskName (mkLockId taskName now uuid)
        { (acquireTaskLock mgr taskName timeoutMs now uuid s).store with
          locks := (updateFirstLock (fun r => r.name == leaseName &&
              r.lockType == leaseType && r.instanceId == mgr.instanceId)
            (fun r => { r with lastHeartbeat := now })
            (acquireTaskLock mgr taskName timeoutMs now uuid s).store.locks) }).2.locks =
        updateFirstLock (fun r => r.name == leaseName && r.lockType == leaseType &&
            r.instanceId == mgr.instanceId)
          (fun r => { r with lastHeartbeat := now }) s.locks
      rw [releaseTaskLock_snd_locks, acquireTaskLock_store_locks]

/-- Claim C1 (amended): when the serialization TaskLock
(`execution_heartbeat` / `master_heartbeat`) is free, the heartbeat
call returns `false` iff no lease row of that name owned by this
holder exists in the store, and otherwise sets that row's
`lastHeartbeat` to the current time and returns `true`; when an
unexpired serialization TaskLock already exists the call instead
returns `null` and leaves the store unchanged. -/
theorem heartbeat_contract (mgr : LockMgr) (now : Nat) (uuid : String) (s : Store) :
    (((s.taskLocks.find? (fun r => r.taskName == "execution_heartbeat" &&
          decide (now < r.expiresAt))).isSome = true →
        updateExecutionLockHeartbeat mgr now uuid s = ⟨.ok none, s, 0⟩) ∧
     (s.taskLocks.find? (fun r => r.taskName == "execution_heartbeat" &&
          decide (now < r.expiresAt)) = none →
       (s.locks.find? (fun r => r.name == "execution_lock" &&
            r.lockType == "execution" && r.instanceId == mgr.instanceId) = none →
          (updateExecutionLockHeartbeat mgr now uuid s).result = .ok (some false) ∧
          (updateExecutionLockHeartbeat mgr now uuid s).store.locks = s.locks) ∧
       (∀ r0, s.locks.find? (fun r => r.name == "execution_lock" &&
            r.lockType == "execution" && r.instanceId == mgr.instanceId) = some r0 →
          (updateExecutionLockHeartbeat mgr now uuid s).result = .ok (some true) ∧
          (updateExecutionLockHeartbeat mgr now uuid s).store.locks =
            updateFirstLock (fun r => r.name == "execution_lock" &&
                r.lockType == "execution" && r.instanceId == mgr.instanceId)
              (fun r => { r with lastHeartbeat := now }) s.locks))) ∧
    (((s.taskLocks.find? (fun r => r.taskName == "master_heartbeat" &&
          decide (now < r.expiresAt))).isSome = true →
        updateMasterLockHeartbeat mgr now uuid s = ⟨.ok none, s, 0⟩) ∧
     (s.taskLocks.find? (fun r => r.taskName == "master_heartbeat" &&
          decide (now < r.expiresAt)) = none →
       (s.locks.find? (fun r => r.name == "master_lock" &&
            r.lockType == "master" && r.instanceId == mgr.instanceId) = none →
          (updateMasterLockHeartbeat mgr now uuid s).result = .ok (some false) ∧
          (updateMasterLockHeartbeat mgr now uuid s).store.locks = s.locks) ∧
       (∀ r0, s.locks.find? (fun r => r.name == "master_lock" &&
            r.lockType == "master" && r.instanceId == mgr.instanceId) = some r0 →
          (updateMasterLockHeartbeat mgr now uuid s).result = .ok (some true) ∧
          (updateMasterLockHeartbeat mgr now uuid s).store.locks =
            updateFirstLock (fun r => r.name == "master_lock" &&
                r.lockType == "master" && r.instanceId == mgr.instanceId)
              (fun r => { r with lastHeartbeat := now }) s.locks))) := by
  have hE := heartbeat_wrapped mgr "execution_heartbeat" "execution_lock" "execution"
    20000 now uuid s (by decide)
  have hM := heartbeat_wrapped mgr "master_heartbeat" "master_lock" "master"
    TASK_LOCK_TIMEOUT now uuid s (by decide)
  exact ⟨⟨hE.1, hE.2⟩, ⟨hM.1, hM.2⟩⟩

/-- Counterexample to claim C1 as stated: this holder's execution
lease row is present, so the claim requires the call to return `true`
and refresh `lastHeartbeat`; but an unexpired `execution_heartbeat`
TaskLock exists, so the call returns `null` and leaves the store
untouched. -/
theorem heartbeat_contract_counterexample :
    (updateExecutionLockHeartbeat ⟨"B", false, none⟩ 1000 "u"
        ⟨[⟨"execution_lock", "execution", "B", 0, 0⟩],
         [⟨"execution_heartbeat", "x", "A", 0, 50000⟩]⟩).result = .ok none ∧
    (updateExecutionLockHeartbeat ⟨"B", false, none⟩ 1000 "u"
        ⟨[⟨"execution_lock", "execution", "B", 0, 0⟩],
         [⟨"execution_heartbeat", "x", "A", 0, 50000⟩]⟩).store =
      ⟨[⟨"execution_lock", "execution", "B", 0, 0⟩],
       [⟨"execution_heartbeat", "x", "A", 0, 50000⟩]⟩ :=
  ⟨rfl, rfl⟩

/-- Witness for the amended claim C1 at a concrete contended state. -/
theorem heartbeat_contract_witness :
    updateExecutionLockHeartbeat ⟨"C", false, none⟩ 1000 "w"
        ⟨[], [⟨"execution_heartbeat", "y", "A", 0, 50000⟩]⟩ =
      ⟨.ok none, ⟨[], [⟨"execution_heartbeat", "y", "A", 0, 50000⟩]⟩, 0⟩ :=
  (heartbeat_contract ⟨"C", false, none⟩ 1000 "w"
    ⟨[], [⟨"execution_heartbeat", "y", "A", 0, 50000⟩]⟩).1.1 (by decide)

/-- Counterexample to claim C2 as stated: a TaskLock named `foo`,
created 5 minutes ago (far past the 2-minute hard ceiling) and not yet
expired, survives both the next acquire call for `foo` (which is
denied) and a `cleanupExpiredTaskLocks` sweep. -/
theorem taskLock_hard_ceiling_counterexample :
    (acquireTaskLock ⟨"B", false, none⟩ "foo" 60000 300000 "u"
        ⟨[], [⟨"foo", "id1", "A", 0, 1000000⟩]⟩).success = false ∧
    (acquireTaskLock ⟨"B", false, none⟩ "foo" 60000 300000 "u"
        ⟨[], [⟨"foo", "id1", "A", 0, 1000000⟩]⟩).store =
      ⟨[], [⟨"foo", "id1", "A", 0, 1000000⟩]⟩ ∧
    (cleanupExpiredTaskLocks 300000 ⟨[], [⟨"foo", "id1", "A", 0, 1000000⟩]⟩).2 =
      ⟨[], [⟨"foo", "id1", "A", 0, 1000000⟩]⟩ :=
  ⟨rfl, rfl, rfl⟩

/-- Claim C2 (amended): only the probe task's (`telegram_test`)
TaskLocks are force-reclaimed regardless of their stated expiry:
`acquireTaskLock` on `telegram_test` first deletes `telegram_test`
records older than 60 s and then grants a fresh lock when no unexpired
record remains; `cleanupExpiredTaskLocks` removes expired records of
any name plus `telegram_test` records older than 2 minutes; a TaskLock
of any other name is denied to a new acquirer and never removed before
its `expiresAt` has passed. -/
theorem taskLock_hard_ceiling (mgr : LockMgr) (timeoutMs now : Nat)
    (uuid : String) (s : Store) :
    (∀ r, r ∈ (cleanupExpiredTaskLocks now s).2.taskLocks ↔
        (r ∈ s.taskLocks ∧ ¬(r.expiresAt < now) ∧
          ¬(r.taskName = "telegram_test" ∧ r.createdAt + 120000 < now))) ∧
    (∀ taskName, taskName ≠ "telegram_test" →
      ∀ e, s.taskLocks.find?
          (fun r => r.taskName == taskName && decide (now < r.expiresAt)) = some e →
        (acquireTaskLock mgr taskName timeoutMs now uuid s).success = false ∧
        (acquireTaskLock mgr taskName timeoutMs now uuid s).store = s) ∧
    ((∀ r ∈ s.taskLocks, r.taskName = "telegram_test" → r.createdAt + 60000 < now) →
      (acquireTaskLock mgr "telegram_test" timeoutMs now uuid s).success = true ∧
      (acquireTaskLock mgr "telegram_test" timeoutMs now uuid s).store.taskLocks =
        (s.taskLocks.filter (fun r => !(r.taskName == "telegram_test" &&
            decide (r.createdAt + 60000 < now))))
          ++ [⟨"telegram_test", mkLockId "telegram_test" now uuid, mgr.instanceId,
              now, now + timeoutMs⟩]) := by
  refine ⟨?_, ?_, ?_⟩
  · intro r
    unfold cleanupExpiredTaskLocks cleanupTelegramTestLocks
    simp only [List.mem_filter, Bool.not_eq_true', Bool.and_eq_true, beq_iff_eq,
      decide_eq_true_eq, Bool.and_eq_false_iff, decide_eq_false_iff_not,
      beq_eq_false_iff_ne, ne_eq]
    constructor
    · rintro ⟨⟨⟨hmem, h1⟩, h2⟩, h3⟩
      refine ⟨hmem, ?_, ?_⟩
      · omega
      · rcases h3 with h3 | h3
        · rintro ⟨htg, _⟩
          exact h3 htg
        · rintro ⟨_, hold⟩
          exact h3 hold
    · rintro ⟨hmem, h1, h2⟩
      refine ⟨⟨⟨hmem, by omega⟩, ?_⟩, ?_⟩
      · by_cases htg : r.taskName = "telegram_test"
        · right
          omega
        · left
          exact htg
      · by_cases htg : r.taskName = "telegram_test"
        · right
          intro hold
          exact h2 ⟨htg, hold⟩
        · left
          exact htg
  · intro taskName hname e hfind
    have hacq := acquireTaskLock_busy mgr taskName timeoutMs now uuid s hname
      (by rw [hfind]; rfl)
    rw [hacq]
    exact ⟨rfl, rfl⟩
  · intro hold
    unfold acquireTaskLock
    simp only [if_true]
    have hfind : List.find? (fun r => r.taskName == "telegram_test" &&
        decide (now < r.expiresAt))
        (s.taskLocks.filter (fun r => !(r.taskName == "telegram_test" &&
          decide (r.createdAt + 60000 < now)))) = none := by
      rw [List.find?_eq_none]
      intro a ha
      have hmem := List.mem_filter.mp ha
      simp only [Bool.and_eq_true, beq_iff_eq, decide_eq_true_eq, Bool.not_eq_true',
        Bool.and_eq_false_iff, decide_eq_false_iff_not, beq_eq_false_iff_ne,
        ne_eq] at hmem ⊢
      rintro ⟨htg, _⟩
      rcases hmem.2 with hbad | hbad
      · exact hbad htg
      · exact hbad (hold a hmem.1 htg)
    rw [hfind]
    exact ⟨rfl, rfl⟩

/-- Witness for the amended claim C2: an unexpired `telegram_test`
TaskLock older than 60 s is force-reclaimed and the acquisition is
granted. -/
theorem taskLock_hard_ceiling_witness :
    (acquireTaskLock ⟨"B", false, none⟩ "telegram_test" 60000 300000 "w"
        ⟨[], [⟨"telegram_test", "old", "A", 0, 400000⟩]⟩).success = true :=
  ((taskLock_hard_ceiling ⟨"B", false, none⟩ 60000 300000 "w"
    ⟨[], [⟨"telegram_test", "old", "A", 0, 400000⟩]⟩).2.2 (by decide)).1

/-- Claim C9: a lease is live exactly when `now - lastHeartbeat` is
less than `GLOBAL_LOCK_TIMEOUT` (180000 ms); the stale-lease deletion
filter used during acquisition matches exactly the rows whose
`lastHeartbeat` is older than 180000 ms; and a sole execution lease
whose heartbeat stopped at time `h` is reclaimable by another instance
exactly from `now - h = 180000` on, and not before. -/
theorem lease_ttl_reclaim (A B uuid : String) (c h now pid : Nat)
    (hAB : B ≠ A) :
    (∀ (t : Nat) (r : LockRow),
      lockIsLive t r = true ↔ t - r.lastHeartbeat < GLOBAL_LOCK_TIMEOUT) ∧
    (∀ (t : Nat) (r : LockRow),
      lockIsStale t r = true ↔ GLOBAL_LOCK_TIMEOUT < t - r.lastHeartbeat) ∧
    ((acquireExecutionLock ⟨B, false, none⟩ .ok now uuid pid
        ⟨[⟨"execution_lock", "execution", A, c, h⟩], []⟩ none).result = true ↔
      GLOBAL_LOCK_TIMEOUT ≤ now - h) := by
  refine ⟨?_, ?_, ?_⟩
  · intro t r
    unfold lockIsLive GLOBAL_LOCK_TIMEOUT
    simp only [decide_eq_true_eq]
    omega
  · intro t r
    unfold lockIsStale GLOBAL_LOCK_TIMEOUT
    simp only [decide_eq_true_eq]
    omega
  · unfold acquireExecutionLock
    rw [testTelegramConnection_ok_clean ⟨B, false, none⟩ rfl now uuid _]
    dsimp only
    by_cases hlive : h + GLOBAL_LOCK_TIMEOUT > now
    · have hfind : List.find?
          (fun r => r.name == "execution_lock" && r.lockType == "execution" &&
            lockIsLive now r)
          [(⟨"execution_lock", "execution", A, c, h⟩ : LockRow)] =
          some ⟨"execution_lock", "execution", A, c, h⟩ := by
        simp [List.find?_cons, lockIsLive, hlive]
      rw [hfind]
      split
      · dsimp only
        split
        · rename_i hc
          exact absurd hc (Ne.symm hAB)
        · simp only [GLOBAL_LOCK_TIMEOUT] at hlive ⊢
          constructor
          · intro hcon
            exact absurd hcon (by simp)
          · intro hge
            exact absurd hge (by omega)
      · rename_i hfalse
        simp at hfalse
    · have hfind : List.find?
          (fun r => r.name == "execution_lock" && r.lockType == "execution" &&
            lockIsLive now r)
          [(⟨"execution_lock", "execution", A, c, h⟩ : LockRow)] = none := by
        simp [List.find?_cons, lockIsLive, hlive]
      rw [hfind]
      split
      · dsimp only
        simp only [GLOBAL_LOCK_TIMEOUT] at hlive ⊢
        constructor
        · intro _
          omega
        · intro _
          trivial
      · rename_i hfalse
        simp at hfalse

/-- Witness for claim C9: at exactly `LEASE_TTL` after the last
heartbeat, a different instance's acquisition succeeds. -/
theorem lease_ttl_reclaim_witness :
    (acquireExecutionLock ⟨"iB", false, none⟩ .ok 180000 "u" 42
        ⟨[⟨"execution_lock", "execution", "iA", 0, 0⟩], []⟩ none).result = true :=
  ((lease_ttl_reclaim "iA" "iB" "u" 0 0 180000 42 (by decide)).2.2).mpr (by decide)

/-- Counterexample to claim C7 as stated: a live foreign Execution
lease exists, but this holder's own live Execution lease is found
first, so the gate is skipped and master acquisition still succeeds. -/
theorem masterLock_gate_counterexample :
    (acquireMasterLock ⟨"B", false, none⟩ .ok 200000 "u"
        ⟨[⟨"execution_lock", "execution", "B", 0, 100000⟩,
          ⟨"execution_lock", "execution", "A", 0, 100000⟩], []⟩).result = true := by
  decide

/-- Claim C7 (amended): whenever a live Execution lease of a different
holder exists and this holder itself holds no live Execution lease,
`acquireMasterLock` returns `false` before the Master-lease check,
without creating, refreshing or deleting any Lease row. -/
theorem masterLock_execution_gate (mgr : LockMgr) (ch : ChannelOutcome)
    (now : Nat) (uuid : String) (s : Store)
    (hforeign : ∃ r ∈ s.locks, r.lockType = "execution" ∧ lockIsLive now r = true ∧
      r.instanceId ≠ mgr.instanceId)
    (hown : ∀ r ∈ s.locks, r.lockType = "execution" → lockIsLive now r = true →
      r.instanceId ≠ mgr.instanceId) :
    (acquireMasterLock mgr ch now uuid s).result = false ∧
    (acquireMasterLock mgr ch now uuid s).store.locks = s.locks := by
  unfold acquireMasterLock
  simp only []
  by_cases hp : (testTelegramConnection mgr ch now uuid s).result = true
  · rw [if_pos hp, testTelegramConnection_store_locks]
    cases hfind : s.locks.find? (fun r => r.lockType == "execution" && lockIsLive now r) with
    | none =>
        exfalso
        obtain ⟨r, hrmem, hrtype, hrlive, _⟩ := hforeign
        have := List.find?_eq_none.mp hfind r hrmem
        simp [hrtype, hrlive] at this
    | some e =>
        have hpe := List.find?_some hfind
        have hmem := List.mem_of_find?_eq_some hfind
        simp only [Bool.and_eq_true, beq_iff_eq] at hpe
        have hne := hown e hmem hpe.1 hpe.2
        dsimp only
        rw [if_neg (show ¬(e.instanceId =
            (testTelegramConnection mgr ch now uuid s).mgr.instanceId) by
          rw [testTelegramConnection_instanceId]
          exact hne)]
        exact ⟨rfl, testTelegramConnection_store_locks ..⟩
  · rw [if_neg hp]
    exact ⟨rfl, testTelegramConnection_store_locks ..⟩

/-- Witness for the amended claim C7 at a concrete single foreign
live Execution lease. -/
theorem masterLock_execution_gate_witness :
    (acquireMasterLock ⟨"B", false, none⟩ .ok 200000 "v"
        ⟨[⟨"execution_lock", "execution", "A", 0, 100000⟩], []⟩).result = false :=
  (masterLock_execution_gate ⟨"B", false, none⟩ .ok 200000 "v"
    ⟨[⟨"execution_lock", "execution", "A", 0, 100000⟩], []⟩
    ⟨⟨"execution_lock", "execution", "A", 0, 100000⟩, by decide⟩
    (by decide)).1

/-- Counterexample to claim C4 as stated: the probe passes and no
Master lease exists at all, so the claim's final case requires a new
Master lease to be inserted and `true` returned; but a live Execution
lease of a different holder makes the call return `false` with no
Lease row written. -/
theorem acquireMasterLock_contract_counterexample :
    (acquireMasterLock ⟨"B", false, none⟩ .ok 200000 "u"
        ⟨[⟨"execution_lock", "execution", "A", 0, 100000⟩], []⟩).result = false ∧
    (acquireMasterLock ⟨"B", false, none⟩ .ok 200000 "u"
        ⟨[⟨"execution_lock", "execution", "A", 0, 100000⟩], []⟩).store.locks =
      [⟨"execution_lock", "execution", "A", 0, 100000⟩] := by
  decide

theorem acquireMasterLockAfterGate_spec (mgr : LockMgr) (now : Nat) (s : Store) :
    (∀ m, (s.locks.filter (fun r => !(lockIsStale now r))).find?
        (fun r => r.name == "master_lock" && r.lockType == "master" &&
          lockIsLive now r) = some m →
      (m.instanceId = mgr.instanceId →
        acquireMasterLockAfterGate mgr now s =
          ⟨true, mgr,
            ⟨updateFirstLock (fun r => r.name == "master_lock" &&
                r.lockType == "master" && lockIsLive now r)
              (fun r => { r with lastHeartbeat := now })
              (s.locks.filter (fun r => !(lockIsStale now r))), s.taskLocks⟩⟩) ∧
      (m.instanceId ≠ mgr.instanceId →
        acquireMasterLockAfterGate mgr now s =
          ⟨false, mgr, ⟨s.locks.filter (fun r => !(lockIsStale now r)),
            s.taskLocks⟩⟩)) ∧
    ((s.locks.filter (fun r => !(lockIsStale now r))).find?
        (fun r => r.name == "master_lock" && r.lockType == "master" &&
          lockIsLive now r) = none →
      acquireMasterLockAfterGate mgr now s =
        ⟨true, mgr, ⟨(s.locks.filter (fun r => !(lockIsStale now r))) ++
          [⟨"master_lock", "master", mgr.instanceId, now, now⟩], s.taskLocks⟩⟩) := by
  unfold acquireMasterLockAfterGate
  simp only []
  constructor
  · intro m hm
    rw [hm]
    dsimp only
    constructor
    · intro heq
      rw [if_pos heq]
    · intro hne
      rw [if_neg hne]
  · intro hnone
    rw [hnone]
    dsimp only
    have hfix : (s.locks.filter (fun r => !(lockIsStale now r))).filter
        (fun r => !(r.name == "master_lock" && r.lockType == "master" &&
          lockIsStale now r)) =
        s.locks.filter (fun r => !(lockIsStale now r)) := by
      apply List.filter_eq_self.mpr
      intro a ha
      have h2 := (List.mem_filter.mp ha).2
      simp only [Bool.not_eq_true'] at h2
      simp [h2]
    rw [hfix]

/-- Claim C4 (amended): `acquireMasterLock` first runs the Exclusivity
Oracle Probe and returns `false` with no Lease row touched when the
probe fails; next, when the live-Execution-lease lookup finds a lease
of a different holder it returns `false` with no Lease row touched;
otherwise it deletes all stale Lease rows (of any name) and then: if a
live Master lease of a different holder remains it returns `false`;
if a live Master lease of this holder remains it refreshes that
lease's heartbeat and returns `true`; and otherwise it inserts a new
Master lease for this holder and returns `true`. -/
theorem acquireMasterLock_contract (mgr : LockMgr) (ch : ChannelOutcome)
    (now : Nat) (uuid : String) (s : Store) :
    ((testTelegramConnection mgr ch now uuid s).result = false →
      (acquireMasterLock mgr ch now uuid s).result = false ∧
      (acquireMasterLock mgr ch now uuid s).store.locks = s.locks) ∧
    ((testTelegramConnection mgr ch now uuid s).result = true →
      (∀ e, s.locks.find? (fun r => r.lockType == "execution" &&
          lockIsLive now r) = some e → e.instanceId ≠ mgr.instanceId →
        (acquireMasterLock mgr ch now uuid s).result = false ∧
        (acquireMasterLock mgr ch now uuid s).store.locks = s.locks) ∧
      ((∀ e, s.locks.find? (fun r => r.lockType == "execution" &&
          lockIsLive now r) = some e → e.instanceId = mgr.instanceId) →
        (∀ m, (s.locks.filter (fun r => !(lockIsStale now r))).find?
            (fun r => r.name == "master_lock" && r.lockType == "master" &&
              lockIsLive now r) = some m →
          (m.instanceId ≠ mgr.instanceId →
            (acquireMasterLock mgr ch now uuid s).result = false ∧
            (acquireMasterLock mgr ch now uuid s).store.locks =
              s.locks.filter (fun r => !(lockIsStale now r))) ∧
          (m.instanceId = mgr.instanceId →
            (acquireMasterLock mgr ch now uuid s).result = true ∧
            (acquireMasterLock mgr ch now uuid s).store.locks =
              updateFirstLock (fun r => r.name == "master_lock" &&
                  r.lockType == "master" && lockIsLive now r)
                (fun r => { r with lastHeartbeat := now })
                (s.locks.filter (fun r => !(lockIsStale now r))))) ∧
        ((s.locks.filter (fun r => !(lockIsStale now r))).find?
            (fun r => r.name == "master_lock" && r.lockType == "master" &&
              lockIsLive now r) = none →
          (acquireMasterLock mgr ch now uuid s).result = true ∧
          (acquireMasterLock mgr ch now uuid s).store.locks =
            (s.locks.filter (fun r => !(lockIsStale now r))) ++
              [⟨"master_lock", "master", mgr.instanceId, now, now⟩]))) := by
  constructor
  · intro hp
    unfold acquireMasterLock
    simp only []
    rw [if_neg (by simp [hp])]
    exact ⟨rfl, testTelegramConnection_store_locks ..⟩
  · intro hp
    have hout : ∀ hgate : (∀ e, s.locks.find? (fun r => r.lockType == "execution" &&
        lockIsLive now r) = some e → e.instanceId = mgr.instanceId),
        acquireMasterLock mgr ch now uuid s =
          acquireMasterLockAfterGate (testTelegramConnection mgr ch now uuid s).mgr
            now (testTelegramConnection mgr ch now uuid s).store := by
      intro hgate
      unfold acquireMasterLock
      simp only []
      rw [if_pos hp, testTelegramConnection_store_locks]
      cases hfind : s.locks.find? (fun r => r.lockType == "execution" &&
          lockIsLive now r) with
      | none => rfl
      | some e =>
          dsimp only
          rw [if_pos (show e.instanceId =
              (testTelegramConnection mgr ch now uuid s).mgr.instanceId by
            rw [testTelegramConnection_instanceId]
            exact hgate e hfind)]
    constructor
    · intro e hfind hne
      unfold acquireMasterLock
      simp only []
      rw [if_pos hp, testTelegramConnection_store_locks, hfind]
      dsimp only
      rw [if_neg (show ¬(e.instanceId =
          (testTelegramConnection mgr ch now uuid s).mgr.instanceId) by
        rw [testTelegramConnection_instanceId]
        exact hne)]
      exact ⟨rfl, testTelegramConnection_store_locks ..⟩
    · intro hgate
      have hEq := hout hgate
      have hspec := acquireMasterLockAfterGate_spec
        (testTelegramConnection mgr ch now uuid s).mgr now
        (testTelegramConnection mgr ch now uuid s).store
      rw [testTelegramConnection_store_locks, testTelegramConnection_instanceId]
        at hspec
      constructor
      · intro m hm
        constructor
        · intro hne
          rw [hEq, ((hspec.1 m hm).2 hne)]
          exact ⟨rfl, rfl⟩
        · intro heq
          rw [hEq, ((hspec.1 m hm).1 heq)]
          exact ⟨rfl, rfl⟩
      · intro hnone
        rw [hEq, hspec.2 hnone]
        exact ⟨rfl, rfl⟩

/-- Witness for the amended claim C4: the probe short-circuits on a
recorded recent conflict and master acquisition fails with the Lease
rows untouched. -/
theorem acquireMasterLock_contract_witness :
    (acquireMasterLock ⟨"W", true, some 0⟩ .ok 1000 "u" ⟨[], []⟩).result = false ∧
    (acquireMasterLock ⟨"W", true, some 0⟩ .ok 1000 "u" ⟨[], []⟩).store.locks = [] :=
  (acquireMasterLock_contract ⟨"W", true, some 0⟩ .ok 1000 "u" ⟨[], []⟩).1 (by decide)

/-- Witness for claim C3 at a concrete successful acquisition. -/
theorem executeWithLock_contract_witness :
    (executeWithLock ⟨"A", false, none⟩ "foo"
        (fun st => (FnOut.ok 7 st : FnOut Nat Unit)) 60000 1000 "u"
        ⟨[], []⟩).fnCalls = 1 ∧
    (executeWithLock ⟨"A", false, none⟩ "foo"
        (fun st => (FnOut.ok 7 st : FnOut Nat Unit)) 60000 1000 "u"
        ⟨[], []⟩).result = .ok (some 7) := by
  have h := (executeWithLock_contract ⟨"A", false, none⟩ "foo"
    (fun st => (FnOut.ok 7 st : FnOut Nat Unit)) 60000 1000 "u" ⟨[], []⟩).2
    (mkLockId "foo" 1000 "u") (by decide) (by decide)
  exact ⟨h.1, (h.2.1 7 _ rfl).1⟩

/-- Witness for claim C5 at a concrete recently-recorded conflict. -/
theorem probe_backoff_and_error_witness :
    (testTelegramConnection ⟨"A", true, some 0⟩ .ok 1000 "u" ⟨[], []⟩).result
      = false ∧
    (testTelegramConnection ⟨"A", true, some 0⟩ .ok 1000 "u"
      ⟨[], []⟩).channelCalls = 0 :=
  (probe_backoff_and_error ⟨"A", true, some 0⟩ .ok 1000 "u" ⟨[], []⟩).1 0
    rfl rfl (by decide)

/-- Witness for claim C8 at a concrete invocation 10 s after the
previous recorded attempt. -/
theorem connection_attempt_cooldown_witness :
    appAcquireExecutionLockStep
        ⟨false, 100000, false, false, false, false, false, false⟩ 110000 0 =
      (.reschedule 20000,
        ⟨false, 100000, false, false, false, false, false, false⟩) := by
  have h := (connection_attempt_cooldown
    ⟨false, 100000, false, false, false, false, false, false⟩ 110000 0 rfl
    (by decide)).1
  simpa using h

/-- Witness for claim C10 at a concrete running state. -/
theorem performShutdown_runs_once_witness :
    (performShutdown ⟨false, 0, true, true, true, true, true, true⟩).2.isShuttingDown
      = true ∧
    performShutdown (performShutdown ⟨false, 0, true, true, true, true, true, true⟩).2 =
      ([], (performShutdown ⟨false, 0, true, true, true, true, true, true⟩).2) := by
  have h := (performShutdown_runs_once
    ⟨false, 0, true, true, true, true, true, true⟩).2 rfl
  exact ⟨h.1, h.2.2.2.2.2.2.2.2.2⟩

end GestioneSlot
